import Mathlib

/-!
Verification of the `ResizeHandle` widget from
`src/nih_plug_vizia/src/widgets/resize_handle.rs`.

The widget's `f32`/`f64` arithmetic is modelled over `ℚ`: the source performs
only additions, subtractions, multiplications, divisions, comparisons with
`0.0`, and `max`, and every concrete input appearing in the claims and in the
repository's own unit test is an exact decimal, so the rational model tracks
the source's control flow decisions away from floating-point ties.
-/

namespace ResizeHandleSpec

/-- Axis-aligned rectangle `{x, y, w, h}`, as used by the widget. The box is
owned by the host layout system and read-only to the widget. -/
structure BoundingBox where
  x : ℚ
  y : ℚ
  w : ℚ
  h : ℚ
  deriving DecidableEq

/-- Modelled from the spec: vizia's `BoundingBox::bottom_left` accessor is not
part of this repository (only its caller `intersects_triangle` and that
caller's unit test are). It is modelled as the pair `(bottom, top)`-style edge
values `(y + h, x)`, the unique corner-valued reading under which both the
repository's own unit test `tests::triangle_intersection` and the spec's §8
hit-test table hold. -/
def BoundingBox.bottom_left (b : BoundingBox) : ℚ × ℚ :=
  (b.y + b.h, b.x)

/-- Modelled from the spec: vizia's `BoundingBox::top_right` accessor is not
part of this repository. Modelled as `(y, x + w)`, the unique corner-valued
reading (together with `BoundingBox.bottom_left`) under which the
repository's own unit test `tests::triangle_intersection` and the spec's §8
hit-test table hold. -/
def BoundingBox.top_right (b : BoundingBox) : ℚ × ℚ :=
  (b.y, b.x + b.w)

/-- Function `intersects_triangle` from `resize_handle.rs` lines 186-204: test whether a
point intersects the triangle of the resize handle.  It computes the single
perp-dot (wedge) product of the edge vector `p1 → p2` (from
`bounds.bottom_left()` to `bounds.top_right()`) with the vector from `p1` to
the test point, and classifies the point as inside exactly when that product
is `>= 0.0`; the other two candidate edge checks are commented out in the
source. -/
def intersects_triangle (bounds : BoundingBox) (p : ℚ × ℚ) : Bool :=
  let p1 := bounds.bottom_left
  let p2 := bounds.top_right
  let v1 := (p2.1 - p1.1, p2.2 - p1.2)
  decide (0 ≤ ((p.1 - p1.1) * v1.2) - ((p.2 - p1.2) * v1.1))

/-- The widget state: the four fields of `struct ResizeHandle`. -/
structure ResizeHandle where
  drag_active : Bool
  start_scale_factor : ℚ
  start_dpi_factor : ℚ
  start_physical_coordinates : ℚ × ℚ
  deriving DecidableEq

/-- Constructor `ResizeHandle::new`: the initial field values built by the constructor. -/
def ResizeHandle.new : ResizeHandle :=
  { drag_active := false
    start_scale_factor := 1
    start_dpi_factor := 1
    start_physical_coordinates := (0, 0) }

/-- The data the event handler reads from the host `EventContext`:
`cx.cache.get_bounds(cx.current())`, `cx.mouse().cursor_x`,
`cx.mouse().cursor_y`, and `cx.scale_factor()` (the live DPI/scale factor). -/
structure EventContext where
  bounds : BoundingBox
  cursor_x : ℚ
  cursor_y : ℚ
  scale_factor : ℚ
  deriving DecidableEq

/-- The window events the handler matches on; every other event kind falls to
the wildcard arm. `MouseMove` carries the logical pointer position. -/
inductive WindowEvent where
  | MouseDownLeft : WindowEvent
  | MouseUpLeft : WindowEvent
  | MouseMove : ℚ → ℚ → WindowEvent
  | Other : WindowEvent
  deriving DecidableEq

/-- The side effects one call of `ResizeHandle::event` issues against the host
context, plus the candidate scale factor the move arm computes.
`scale_requests` records `cx.set_user_scale_factor(..)` calls; in this
revision of the source that call is commented out behind a TODO, so the
handler never pushes to it.  `computed_scale_factor` records the value bound
to `_new_scale_factor` when the move arm runs while dragging. -/
structure Effects where
  captured : Bool
  released : Bool
  set_active : Option Bool
  set_hover : Option Bool
  consumed : Bool
  scale_requests : List ℚ
  computed_scale_factor : Option ℚ
  deriving DecidableEq

/-- The effects of an arm that talks to the host not at all. -/
def Effects.nil : Effects :=
  { captured := false
    released := false
    set_active := none
    set_hover := none
    consumed := false
    scale_requests := []
    computed_scale_factor := none }

/-- Handler `ResizeHandle::event` from `resize_handle.rs` lines 48-115, as a function
from the prior state, the context data, and the event to the next state and
the issued effects.

* `MouseDown(Left)`: if `intersects_triangle(bounds, (cursor_x, cursor_y))`
  then capture, `set_active(true)`, set `drag_active = true`, record
  `start_scale_factor = cx.scale_factor() as f64`,
  `start_dpi_factor = cx.scale_factor()`, and
  `start_physical_coordinates = (cursor_x * start_dpi_factor,
  cursor_y * start_dpi_factor)`, and consume the event; otherwise nothing
  (the TODO branch).
* `MouseUp(Left)`: if `drag_active` then release, `set_active(false)`, and
  clear `drag_active`; otherwise nothing.
* `MouseMove(x, y)`: always `set_hover(intersects_triangle(bounds, (x, y)))`;
  then, if `drag_active`, bind `_new_scale_factor` to
  `(start_scale_factor * max(x*start_dpi/start_px, y*start_dpi/start_py))
  .max(0.5)` — the `set_user_scale_factor` call on it is commented out in the
  source, so the value is discarded and no field changes.
* anything else: nothing. -/
def ResizeHandle.event (s : ResizeHandle) (cx : EventContext) (e : WindowEvent) :
    ResizeHandle × Effects :=
  match e with
  | WindowEvent.MouseDownLeft =>
    if intersects_triangle cx.bounds (cx.cursor_x, cx.cursor_y) then
      ({ drag_active := true
         start_scale_factor := cx.scale_factor
         start_dpi_factor := cx.scale_factor
         start_physical_coordinates :=
           (cx.cursor_x * cx.scale_factor, cx.cursor_y * cx.scale_factor) },
       { Effects.nil with
           captured := true
           set_active := some true
           consumed := true })
    else
      (s, Effects.nil)
  | WindowEvent.MouseUpLeft =>
    if s.drag_active then
      ({ s with drag_active := false },
       { Effects.nil with
           released := true
           set_active := some false })
    else
      (s, Effects.nil)
  | WindowEvent.MouseMove x y =>
    let hover := intersects_triangle cx.bounds (x, y)
    if s.drag_active then
      let compensated_physical_x := x * s.start_dpi_factor
      let compensated_physical_y := y * s.start_dpi_factor
      let start_physical_x := s.start_physical_coordinates.1
      let start_physical_y := s.start_physical_coordinates.2
      let new_scale_factor :=
        max (s.start_scale_factor *
              (max (compensated_physical_x / start_physical_x)
                   (compensated_physical_y / start_physical_y)))
            (1 / 2)
      (s, { Effects.nil with
              set_hover := some hover
              computed_scale_factor := some new_scale_factor })
    else
      (s, { Effects.nil with set_hover := some hover })
  | WindowEvent.Other => (s, Effects.nil)

/-- The bounding box used by the repository's unit test and by the spec's §8
hit-test table. -/
def testBBox : BoundingBox :=
  { x := 10, y := 10, w := 10, h := 10 }

/-- A concrete context: the test box, cursor at `(15, 15)` (on the hypotenuse,
hence a hit), live scale factor `1`. -/
def pressCtx : EventContext :=
  { bounds := testBBox, cursor_x := 15, cursor_y := 15, scale_factor := 1 }

/-- The claimed invariant: whenever `drag_active` is set, both recorded start
physical coordinates are strictly positive. -/
def positiveStart (s : ResizeHandle) : Prop :=
  s.drag_active = true →
    0 < s.start_physical_coordinates.1 ∧ 0 < s.start_physical_coordinates.2

lemma hit_mid : intersects_triangle testBBox (15, 15) = true := by
  norm_num [intersects_triangle, testBBox, BoundingBox.bottom_left, BoundingBox.top_right]

lemma hit_corner_zero :
    intersects_triangle { x := 0, y := 0, w := 10, h := 10 } (0, 10) = true := by
  norm_num [intersects_triangle, BoundingBox.bottom_left, BoundingBox.top_right]

/-- Claim C1: For the bounding box `{x=10, y=10, w=10, h=10}`,
`intersects_triangle` returns `false` at `(10,10)`, `true` at `(20,10)`,
`(10,20)`, `(20,20)` and `(15,15)`, and `false` at `(14.9,15)` and
`(15,14.9)`; moreover every point `(x, 30-x)` with `10 ≤ x ≤ 20` — i.e. every
point lying exactly on the hypotenuse from the box's bottom-left corner to its
top-right corner — is classified as inside (the comparison is `≥ 0`, not
`> 0`). -/
theorem hit_test_table_and_hypotenuse (x : ℚ) (hx1 : 10 ≤ x) (hx2 : x ≤ 20) :
    intersects_triangle testBBox (10, 10) = false ∧
    intersects_triangle testBBox (20, 10) = true ∧
    intersects_triangle testBBox (10, 20) = true ∧
    intersects_triangle testBBox (20, 20) = true ∧
    intersects_triangle testBBox (15, 15) = true ∧
    intersects_triangle testBBox (149 / 10, 15) = false ∧
    intersects_triangle testBBox (15, 149 / 10) = false ∧
    intersects_triangle testBBox (x, 30 - x) = true := by
  refine ⟨?_, ?_, ?_, ?_, ?_, ?_, ?_, ?_⟩
  all_goals
    simp only [intersects_triangle, testBBox, BoundingBox.bottom_left,
      BoundingBox.top_right, decide_eq_true_eq, decide_eq_false_iff_not]
  all_goals norm_num
  linarith

/-- Witness for `hit_test_table_and_hypotenuse` at `x = 15`. -/
theorem hit_test_table_and_hypotenuse_witness :
    (10 : ℚ) ≤ 15 ∧ (15 : ℚ) ≤ 20 ∧
    intersects_triangle testBBox ((15 : ℚ), 30 - 15) = true :=
  ⟨by norm_num, by norm_num,
    (hit_test_table_and_hypotenuse 15 (by norm_num) (by norm_num)).2.2.2.2.2.2.2⟩

lemma event_mouseMove_state (s : ResizeHandle) (cx : EventContext) (x y : ℚ) :
    (s.event cx (WindowEvent.MouseMove x y)).1 = s := by
  cases hd : s.drag_active <;> simp [ResizeHandle.event, hd]

lemma event_mouseMove_requests (s : ResizeHandle) (cx : EventContext) (x y : ℚ) :
    (s.event cx (WindowEvent.MouseMove x y)).2.scale_requests = [] := by
  cases hd : s.drag_active <;> simp [ResizeHandle.event, hd, Effects.nil]

lemma event_mouseMove_hover (s : ResizeHandle) (cx : EventContext) (x y : ℚ) :
    (s.event cx (WindowEvent.MouseMove x y)).2.set_hover =
      some (intersects_triangle cx.bounds (x, y)) := by
  cases hd : s.drag_active <;> simp [ResizeHandle.event, hd, Effects.nil]

lemma event_mouseMove_computed_isSome (s : ResizeHandle) (cx : EventContext) (x y : ℚ) :
    (s.event cx (WindowEvent.MouseMove x y)).2.computed_scale_factor.isSome =
      s.drag_active := by
  cases hd : s.drag_active <;> simp [ResizeHandle.event, hd, Effects.nil]

/-- Claim C2 (code bug): During a drag started by a hit press at `(15, 15)`, a
pointer move to `(30, 30)` emits no scale-change request at all: the
`set_user_scale_factor` call is commented out in this revision of the source
behind a TODO, contradicting both the module documentation ("Dragging this
handle around will cause the window to be resized") and the claimed
one-request-per-move behaviour. -/
theorem dragging_move_emits_no_scale_request :
    (ResizeHandle.new.event pressCtx WindowEvent.MouseDownLeft).1.drag_active = true ∧
    ((ResizeHandle.new.event pressCtx WindowEvent.MouseDownLeft).1.event
        pressCtx (WindowEvent.MouseMove 30 30)).2.scale_requests = [] := by
  have h : intersects_triangle pressCtx.bounds (pressCtx.cursor_x, pressCtx.cursor_y) = true :=
    hit_mid
  exact ⟨by simp [ResizeHandle.event, h], event_mouseMove_requests _ _ _ _⟩

/-- Claim C3: While dragging (with strictly positive captured start physical
coordinates, where the rational model tracks the source's `f32` arithmetic),
a pointer move to logical `(x, y)` computes the candidate scale factor as
`max (start_scale_factor * max ((x*start_dpi)/start_px) ((y*start_dpi)/start_py))
(1/2)`: current coordinates are converted to physical pixels with the DPI
factor captured at drag start — the context (and hence its live scale/DPI
factor) is universally quantified and absent from the result — the larger of
the two axis ratios is selected, and only the lower floor `1/2` is applied,
with no upper bound. -/
theorem move_candidate_scale_formula (s : ResizeHandle) (cx : EventContext) (x y : ℚ)
    (hd : s.drag_active = true)
    (hx : 0 < s.start_physical_coordinates.1)
    (hy : 0 < s.start_physical_coordinates.2) :
    (s.event cx (WindowEvent.MouseMove x y)).2.computed_scale_factor =
      some (max (s.start_scale_factor *
          max ((x * s.start_dpi_factor) / s.start_physical_coordinates.1)
              ((y * s.start_dpi_factor) / s.start_physical_coordinates.2))
        (1 / 2)) := by
  simp [ResizeHandle.event, hd]

/-- Witness for `move_candidate_scale_formula`: dragging with start scale 1,
start DPI 1, start physical position `(15, 15)`, a move to `(30, 30)` yields
the candidate `max (1 * max ((30*1)/15) ((30*1)/15)) (1/2)` (that is, 2). -/
theorem move_candidate_scale_formula_witness :
    ((ResizeHandle.mk true 1 1 (15, 15)).event pressCtx
        (WindowEvent.MouseMove 30 30)).2.computed_scale_factor =
      some (max ((1 : ℚ) * max ((30 * 1) / 15) ((30 * 1) / 15)) (1 / 2)) :=
  move_candidate_scale_formula (ResizeHandle.mk true 1 1 (15, 15)) pressCtx 30 30
    rfl (by norm_num) (by norm_num)

/-- Claim C4 counterexample: The claim that a zero-or-negative start coordinate
makes the handler "skip the update entirely" (no division performed) is false:
with `drag_active = true` and start physical coordinates `(0, 0)`, a pointer
move still computes a candidate scale factor — the source has no zero-start
guard and binds `_new_scale_factor` unconditionally. -/
theorem zero_start_move_still_computes :
    (ResizeHandle.mk true 1 1 (0, 0)).drag_active = true ∧
    (ResizeHandle.mk true 1 1 (0, 0)).start_physical_coordinates.1 ≤ 0 ∧
    ((ResizeHandle.mk true 1 1 (0, 0)).event pressCtx
        (WindowEvent.MouseMove 5 5)).2.computed_scale_factor.isSome = true := by
  refine ⟨rfl, by norm_num, ?_⟩
  simp [ResizeHandle.event]

/-- Claim C4 (amended): There is no zero-start guard in the source: on a pointer
move while dragging with a zero-or-negative captured start coordinate, the
candidate scale factor is still computed (the division is performed), but no
scale-change request is emitted for that event (none ever is in this revision)
and the drag state is entirely unaffected. -/
theorem zero_start_move_no_request (s : ResizeHandle) (cx : EventContext) (x y : ℚ)
    (hd : s.drag_active = true)
    (hz : s.start_physical_coordinates.1 ≤ 0 ∨ s.start_physical_coordinates.2 ≤ 0) :
    (s.event cx (WindowEvent.MouseMove x y)).2.computed_scale_factor.isSome = true ∧
    (s.event cx (WindowEvent.MouseMove x y)).2.scale_requests = [] ∧
    (s.event cx (WindowEvent.MouseMove x y)).1 = s := by
  refine ⟨?_, event_mouseMove_requests s cx x y, event_mouseMove_state s cx x y⟩
  rw [event_mouseMove_computed_isSome, hd]

/-- Witness for `zero_start_move_no_request` at the dragging state with start
physical coordinates `(0, 0)`. -/
theorem zero_start_move_no_request_witness :
    ((ResizeHandle.mk true 1 1 (0, 0)).event pressCtx
        (WindowEvent.MouseMove 5 5)).2.computed_scale_factor.isSome = true ∧
    ((ResizeHandle.mk true 1 1 (0, 0)).event pressCtx
        (WindowEvent.MouseMove 5 5)).2.scale_requests = [] ∧
    ((ResizeHandle.mk true 1 1 (0, 0)).event pressCtx
        (WindowEvent.MouseMove 5 5)).1 = ResizeHandle.mk true 1 1 (0, 0) :=
  zero_start_move_no_request (ResizeHandle.mk true 1 1 (0, 0)) pressCtx 5 5
    rfl (Or.inl (by norm_num))

lemma event_mouseDown_hit (s : ResizeHandle) (cx : EventContext)
    (h : intersects_triangle cx.bounds (cx.cursor_x, cx.cursor_y) = true) :
    s.event cx WindowEvent.MouseDownLeft =
      ({ drag_active := true
         start_scale_factor := cx.scale_factor
         start_dpi_factor := cx.scale_factor
         start_physical_coordinates :=
           (cx.cursor_x * cx.scale_factor, cx.cursor_y * cx.scale_factor) },
       { Effects.nil with
           captured := true
           set_active := some true
           consumed := true }) := by
  simp [ResizeHandle.event, h]

lemma event_mouseDown_miss (s : ResizeHandle) (cx : EventContext)
    (h : intersects_triangle cx.bounds (cx.cursor_x, cx.cursor_y) = false) :
    s.event cx WindowEvent.MouseDownLeft = (s, Effects.nil) := by
  simp [ResizeHandle.event, h]

lemma event_mouseUp_dragging (s : ResizeHandle) (cx : EventContext)
    (hd : s.drag_active = true) :
    s.event cx WindowEvent.MouseUpLeft =
      ({ s with drag_active := false },
       { Effects.nil with
           released := true
           set_active := some false }) := by
  simp [ResizeHandle.event, hd]

lemma event_mouseUp_idle (s : ResizeHandle) (cx : EventContext)
    (hd : s.drag_active = false) :
    s.event cx WindowEvent.MouseUpLeft = (s, Effects.nil) := by
  simp [ResizeHandle.event, hd]

lemma event_other (s : ResizeHandle) (cx : EventContext) :
    s.event cx WindowEvent.Other = (s, Effects.nil) := rfl

/-- Claim C5: A left-button press transitions Idle to Dragging exactly when the
context's cursor position passes the hit test against the current bounding
box: on a hit the widget captures the pointer, sets the active flag, sets
`drag_active`, records `start_scale_factor` and `start_dpi_factor` (both from
the context's scale factor) and the start physical coordinates (cursor times
DPI factor), and consumes the event; on a miss (including a click inside the
box but outside the triangle) nothing happens — no capture, no flag, no state
change, and the event is not consumed. -/
theorem mouse_down_transition (s : ResizeHandle) (cx : EventContext) :
    (intersects_triangle cx.bounds (cx.cursor_x, cx.cursor_y) = true →
      s.event cx WindowEvent.MouseDownLeft =
        ({ drag_active := true
           start_scale_factor := cx.scale_factor
           start_dpi_factor := cx.scale_factor
           start_physical_coordinates :=
             (cx.cursor_x * cx.scale_factor, cx.cursor_y * cx.scale_factor) },
         { Effects.nil with
             captured := true
             set_active := some true
             consumed := true })) ∧
    (intersects_triangle cx.bounds (cx.cursor_x, cx.cursor_y) = false →
      s.event cx WindowEvent.MouseDownLeft = (s, Effects.nil)) :=
  ⟨event_mouseDown_hit s cx, event_mouseDown_miss s cx⟩

/-- Witness for `mouse_down_transition`: pressing at `(15, 15)` over the test
box with scale factor `1` starts a drag with the recorded start data. -/
theorem mouse_down_transition_witness :
    ResizeHandle.new.event pressCtx WindowEvent.MouseDownLeft =
      ({ drag_active := true
         start_scale_factor := 1
         start_dpi_factor := 1
         start_physical_coordinates := (15 * 1, 15 * 1) },
       { Effects.nil with
           captured := true
           set_active := some true
           consumed := true }) :=
  (mouse_down_transition ResizeHandle.new pressCtx).1 hit_mid

/-- Claim C6: A left-button release while dragging unconditionally ends the drag
— pointer capture is released, the active flag is cleared, `drag_active` is
set to `false` — for every context, hence regardless of the release position;
a left-button release while not dragging changes no state and issues no host
commands. -/
theorem mouse_up_transition (s : ResizeHandle) (cx : EventContext) :
    (s.drag_active = true →
      s.event cx WindowEvent.MouseUpLeft =
        ({ s with drag_active := false },
         { Effects.nil with
             released := true
             set_active := some false })) ∧
    (s.drag_active = false →
      s.event cx WindowEvent.MouseUpLeft = (s, Effects.nil)) :=
  ⟨event_mouseUp_dragging s cx, event_mouseUp_idle s cx⟩

/-- Witness for `mouse_up_transition`: a release at cursor `(-100, -100)` —
far outside the hit region — still ends the drag. -/
theorem mouse_up_transition_witness :
    (ResizeHandle.mk true 1 1 (15, 15)).event
        { bounds := testBBox, cursor_x := -100, cursor_y := -100, scale_factor := 1 }
        WindowEvent.MouseUpLeft =
      (ResizeHandle.mk false 1 1 (15, 15),
       { Effects.nil with
           released := true
           set_active := some false }) :=
  (mouse_up_transition (ResizeHandle.mk true 1 1 (15, 15))
    { bounds := testBBox, cursor_x := -100, cursor_y := -100, scale_factor := 1 }).1 rfl

/-- Claim C7 counterexample: The positive-start invariant is not preserved by
every event-handler step: from the freshly constructed widget (which satisfies
the invariant), a press over the box `{x=0, y=0, w=10, h=10}` with the cursor
at `(0, 10)` — the box's bottom-left corner, which lies on the hypotenuse and
passes the hit test — yields a state with `drag_active = true` whose recorded
start physical x-coordinate is `0 * 1`, not strictly positive. -/
theorem press_breaks_positive_start :
    positiveStart ResizeHandle.new ∧
    (ResizeHandle.new.event
        { bounds := { x := 0, y := 0, w := 10, h := 10 },
          cursor_x := 0, cursor_y := 10, scale_factor := 1 }
        WindowEvent.MouseDownLeft).1.drag_active = true ∧
    ¬ 0 < (ResizeHandle.new.event
        { bounds := { x := 0, y := 0, w := 10, h := 10 },
          cursor_x := 0, cursor_y := 10, scale_factor := 1 }
        WindowEvent.MouseDownLeft).1.start_physical_coordinates.1 := by
  have h := event_mouseDown_hit ResizeHandle.new
    { bounds := { x := 0, y := 0, w := 10, h := 10 },
      cursor_x := 0, cursor_y := 10, scale_factor := 1 } hit_corner_zero
  refine ⟨fun hda => Bool.noConfusion hda, ?_, ?_⟩
  · rw [h]
  · rw [h]
    norm_num

/-- Claim C7 (amended): The positive-start invariant `positiveStart` — whenever
`drag_active` is set, both recorded start physical coordinates are strictly
positive — is preserved by every event-handler step in which any press
event's cursor physical coordinates (cursor times context scale factor) are
strictly positive; the code itself has no guard establishing this, so the
extra hypothesis on press events cannot be dropped. -/
theorem positive_start_preserved (s : ResizeHandle) (cx : EventContext)
    (e : WindowEvent) (hs : positiveStart s)
    (hcx : e = WindowEvent.MouseDownLeft →
      0 < cx.cursor_x * cx.scale_factor ∧ 0 < cx.cursor_y * cx.scale_factor) :
    positiveStart (s.event cx e).1 := by
  cases e with
  | MouseDownLeft =>
    by_cases h : intersects_triangle cx.bounds (cx.cursor_x, cx.cursor_y) = true
    · rw [event_mouseDown_hit s cx h]
      intro _
      exact hcx rfl
    · rw [event_mouseDown_miss s cx (by simpa using h)]
      exact hs
  | MouseUpLeft =>
    by_cases hd : s.drag_active = true
    · rw [event_mouseUp_dragging s cx hd]
      intro hda
      exact Bool.noConfusion hda
    · rw [event_mouseUp_idle s cx (by simpa using hd)]
      exact hs
  | MouseMove x y =>
    rw [event_mouseMove_state]
    exact hs
  | Other =>
    rw [event_other]
    exact hs

/-- Witness for `positive_start_preserved`: a press at `(15, 15)` with scale
factor `1` over the test box preserves the invariant. -/
theorem positive_start_preserved_witness :
    positiveStart ((ResizeHandle.new.event pressCtx WindowEvent.MouseDownLeft).1) :=
  positive_start_preserved ResizeHandle.new pressCtx WindowEvent.MouseDownLeft
    (fun hda => Bool.noConfusion hda)
    (fun _ => ⟨by norm_num [pressCtx], by norm_num [pressCtx]⟩)

/-- Claim C8: On every pointer move, independent of drag state, the handler sets
the host hover flag to exactly the hit-test result at the event position; and
while no drag is active, a pointer move returns the state unchanged with the
hover update as its only effect, so repeated moves at the same position change
only the hover flag. -/
theorem mouse_move_hover_update (s : ResizeHandle) (cx : EventContext) (x y : ℚ) :
    (s.event cx (WindowEvent.MouseMove x y)).2.set_hover =
      some (intersects_triangle cx.bounds (x, y)) ∧
    (s.drag_active = false →
      s.event cx (WindowEvent.MouseMove x y) =
        (s, { Effects.nil with set_hover := some (intersects_triangle cx.bounds (x, y)) })) := by
  refine ⟨event_mouseMove_hover s cx x y, fun hd => ?_⟩
  simp [ResizeHandle.event, hd]

/-- Witness for `mouse_move_hover_update`: a move to `(15, 15)` with no drag
active leaves the fresh state unchanged and only sets the hover flag. -/
theorem mouse_move_hover_update_witness :
    ResizeHandle.new.event pressCtx (WindowEvent.MouseMove 15 15) =
      (ResizeHandle.new,
       { Effects.nil with
           set_hover := some (intersects_triangle pressCtx.bounds (15, 15)) }) :=
  (mouse_move_hover_update ResizeHandle.new pressCtx 15 15).2 rfl

/-- Claim C9: The hit test is a pure half-plane predicate and never checks
containment in the bounding box: for every box with positive width and height
and every margin `M`, there is a point beyond the box's far corner by more
than `M` in both coordinates (hence arbitrarily far outside the box, on the
triangle's side of the hypotenuse line) that it still classifies as inside. -/
theorem hit_test_ignores_box_containment (b : BoundingBox) (M : ℚ)
    (hw : 0 < b.w) (hh : 0 < b.h) :
    ∃ p : ℚ × ℚ, intersects_triangle b p = true ∧
      b.x + b.w + M < p.1 ∧ b.y + b.h + M < p.2 := by
  set t0 : ℚ := max ((b.x + b.w + M - b.y - b.h) / b.w) ((b.y + b.h + M - b.x) / b.h)
    with ht0
  set t : ℚ := max t0 0 + 1 with ht
  have htpos : 0 < t := by
    have : (0 : ℚ) ≤ max t0 0 := le_max_right _ _
    linarith
  have htgt : t0 < t := by
    have : t0 ≤ max t0 0 := le_max_left _ _
    linarith
  refine ⟨(b.y + b.h + t * b.w, b.x + t * b.h), ?_, ?_, ?_⟩
  · simp only [intersects_triangle, BoundingBox.bottom_left, BoundingBox.top_right,
      decide_eq_true_eq]
    have key : (b.y + b.h + t * b.w - (b.y + b.h)) * (b.x + b.w - b.x) -
        (b.x + t * b.h - b.x) * (b.y - (b.y + b.h)) = t * (b.w ^ 2 + b.h ^ 2) := by
      ring
    rw [key]
    have hsq : (0 : ℚ) ≤ b.w ^ 2 + b.h ^ 2 := by positivity
    exact mul_nonneg htpos.le hsq
  · show b.x + b.w + M < b.y + b.h + t * b.w
    have hdiv : (b.x + b.w + M - b.y - b.h) / b.w < t :=
      lt_of_le_of_lt (le_max_left _ _) htgt
    have := (div_lt_iff₀ hw).mp hdiv
    linarith
  · show b.y + b.h + M < b.x + t * b.h
    have hdiv : (b.y + b.h + M - b.x) / b.h < t :=
      lt_of_le_of_lt (le_max_right _ _) htgt
    have := (div_lt_iff₀ hh).mp hdiv
    linarith

/-- Witness for `hit_test_ignores_box_containment` at the test box with
margin `1000`. -/
theorem hit_test_ignores_box_containment_witness :
    ∃ p : ℚ × ℚ, intersects_triangle testBBox p = true ∧
      testBBox.x + testBBox.w + 1000 < p.1 ∧ testBBox.y + testBBox.h + 1000 < p.2 :=
  hit_test_ignores_box_containment testBBox 1000 (by norm_num [testBBox])
    (by norm_num [testBBox])

/-- Claim C10: Every pointer-move event leaves the widget state — all four
fields `drag_active`, `start_scale_factor`, `start_dpi_factor`,
`start_physical_coordinates` — unchanged and emits no scale-change request;
the move arm computes a candidate scale factor exactly when `drag_active` is
set, and then discards it. -/
theorem mouse_move_preserves_state (s : ResizeHandle) (cx : EventContext) (x y : ℚ) :
    (s.event cx (WindowEvent.MouseMove x y)).1 = s ∧
    (s.event cx (WindowEvent.MouseMove x y)).2.scale_requests = [] ∧
    (s.event cx (WindowEvent.MouseMove x y)).2.computed_scale_factor.isSome =
      s.drag_active :=
  ⟨event_mouseMove_state s cx x y, event_mouseMove_requests s cx x y,
    event_mouseMove_computed_isSome s cx x y⟩

end ResizeHandleSpec
